import Mathlib

/-!
Shallow embedding of the learn-wgpu rendering host (`src/lib.rs`).

The GPU-side objects (device, queue, buffers, textures, pipelines) are
modelled by the data the program stores in them; GPU calls that only
matter through their observable effect on the program's state machine are
recorded explicitly (the list of surface-configure calls, the per-frame
command list). Machine integers (`u32`, `usize`) carry no arithmetic here
beyond comparison and assignment, so they are modelled as `Nat`; `f64`
color channels are modelled as `ℚ`.
-/

namespace LearnWgpu

/-- Mirrors `struct Vertex { position: [f32; 3], color: [f32; 3] }`. -/
structure Vertex where
  position : ℚ × ℚ × ℚ
  color : ℚ × ℚ × ℚ
deriving DecidableEq, Repr

/-- Mirrors `const VERTICES: &[Vertex]` (ten vertices). -/
def VERTICES : List Vertex := [
  ⟨(-1/2, -3/4, 0), (1/2, 0, 1/2)⟩,
  ⟨(1/2, -3/4, 0), (1/2, 0, 1/2)⟩,
  ⟨(3/4, 1/2, 0), (1/2, 0, 1/2)⟩,
  ⟨(0, 1, 0), (1/2, 0, 1/2)⟩,
  ⟨(-3/4, 1/2, 0), (1/2, 0, 1/2)⟩,
  ⟨(-3/10, 0, 0), (1/2, 0, 1/2)⟩,
  ⟨(0, -3/10, 0), (1/2, 0, 1/2)⟩,
  ⟨(3/10, 0, 0), (1/2, 0, 1/2)⟩,
  ⟨(1/4, 9/20, 0), (1/2, 0, 1/2)⟩,
  ⟨(-1/4, 9/20, 0), (1/2, 0, 1/2)⟩]

/-- Mirrors `const INDICES_PENTAGON: &[u16]` (three triangles, nine indices). -/
def INDICES_PENTAGON : List ℕ := [0, 1, 2, 0, 2, 3, 0, 3, 4]

/-- Mirrors `const INDICES_CHALLENGE: &[u16]` (five triangles, fifteen indices). -/
def INDICES_CHALLENGE : List ℕ := [0, 7, 9, 5, 1, 8, 6, 2, 9, 5, 7, 3, 4, 6, 8]

/-- A surface texture format; the code inspects only whether it is sRGB
(`f.describe().srgb`), so a format is an opaque id plus that flag. -/
structure TextureFormat where
  id : ℕ
  srgb : Bool
deriving DecidableEq, Repr

/-- The capability query result `surface.get_capabilities(&adapter)`:
the reported lists of formats, present modes and alpha modes (the latter
two opaque ids). -/
structure SurfaceCapabilities where
  formats : List TextureFormat
  present_modes : List ℕ
  alpha_modes : List ℕ
deriving DecidableEq, Repr

/-- Mirrors the format selection in `State::new`:
`surface_caps.formats.iter().copied().filter(|f| f.describe().srgb).next().unwrap_or(surface_caps.formats[0])`.
Rust's `unwrap_or` evaluates `formats[0]` eagerly, so an empty format list
panics regardless; `none` models that panic. -/
def chooseSurfaceFormat (formats : List TextureFormat) : Option TextureFormat :=
  match formats[0]? with
  | none => none
  | some f0 => some (((formats.filter (fun f => f.srgb)).head?).getD f0)

/-- The `wgpu::TextureUsages::RENDER_ATTACHMENT` bit. -/
def RENDER_ATTACHMENT : ℕ := 16

/-- Mirrors `wgpu::SurfaceConfiguration`. -/
structure SurfaceConfiguration where
  usage : ℕ
  format : TextureFormat
  width : ℕ
  height : ℕ
  present_mode : ℕ
  alpha_mode : ℕ
  view_formats : List TextureFormat
deriving DecidableEq, Repr

/-- Mirrors `wgpu::Color` (four `f64` channels, modelled as `ℚ`). -/
structure Color where
  r : ℚ
  g : ℚ
  b : ℚ
  a : ℚ
deriving DecidableEq, Repr

/-- Mirrors `winit::dpi::PhysicalSize<u32>`. -/
structure PhysicalSize where
  width : ℕ
  height : ℕ
deriving DecidableEq, Repr

/-- A compiled render pipeline, identified by the data that distinguishes
the two pipelines built in `State::new`: the shader entry points. -/
structure RenderPipeline where
  vs_entry : String
  fs_entry : String
deriving DecidableEq, Repr

/-- The first pipeline (`fs_main` fragment entry point). -/
def render_pipeline1 : RenderPipeline := ⟨"vs_main", "fs_main"⟩

/-- The second, challenge pipeline (`fs_main2` fragment entry point). -/
def render_pipeline2 : RenderPipeline := ⟨"vs_main", "fs_main2"⟩

/-- Mirrors `struct State`. GPU buffers are modelled by their uploaded
contents; `configure_log` records every `surface.configure(..)` call
performed so far, in order, so that properties of the configurations
actually applied to the surface can be stated. -/
structure State where
  config : SurfaceConfiguration
  size : PhysicalSize
  color : Color
  render_pipelines : List RenderPipeline
  render_pipeline_idx : ℕ
  vertex_buffer : List Vertex
  index_buffers : List (List ℕ)
  index_buffer_idx : ℕ
  num_indices : ℕ
  diffuse_bind_group : ℕ
  configure_log : List SurfaceConfiguration
deriving DecidableEq, Repr

/-- Mirrors `State::new(window)`. The window's reported inner size and the
adapter's surface capabilities are the two external inputs that reach the
state machine. `none` models the panics on empty capability lists
(`formats[0]`, `present_modes[0]`, `alpha_modes[0]`). Note the initial
`surface.configure(&device, &config)` is unconditional: the window size is
passed through with no zero check. -/
def State.new (size : PhysicalSize) (caps : SurfaceCapabilities) : Option State :=
  match chooseSurfaceFormat caps.formats, caps.present_modes[0]?, caps.alpha_modes[0]? with
  | some surface_format, some pm, some am =>
    let config : SurfaceConfiguration :=
      { usage := RENDER_ATTACHMENT
        format := surface_format
        width := size.width
        height := size.height
        present_mode := pm
        alpha_mode := am
        view_formats := [] }
    some
      { config := config
        size := size
        color := ⟨1, 1, 1, 1⟩
        render_pipelines := [render_pipeline1, render_pipeline2]
        render_pipeline_idx := 0
        vertex_buffer := VERTICES
        index_buffers := [INDICES_PENTAGON, INDICES_CHALLENGE]
        index_buffer_idx := 0
        num_indices := INDICES_PENTAGON.length
        diffuse_bind_group := 0
        configure_log := [config] }
  | _, _, _ => none

/-- Mirrors `State::resize`: only when both dimensions are positive are the
stored size and the configuration's dimensions updated and the surface
reconfigured; otherwise nothing happens at all. -/
def State.resize (s : State) (new_size : PhysicalSize) : State :=
  if 0 < new_size.width ∧ 0 < new_size.height then
    let config : SurfaceConfiguration :=
      { s.config with width := new_size.width, height := new_size.height }
    { s with size := new_size, config := config,
             configure_log := s.configure_log ++ [config] }
  else
    s

/-- Mirrors `winit::event::ElementState`. -/
inductive ElementState
  | Pressed
  | Released
deriving DecidableEq, Repr

/-- Mirrors `winit::event::MouseButton`. -/
inductive MouseButton
  | Left
  | Right
  | Middle
  | Other (id : ℕ)
deriving DecidableEq, Repr

/-- The `winit` window events the program inspects; a keyboard event
carries its scancode and optional virtual keycode (opaque ids), everything
else the code never looks inside is collapsed into `OtherEvent`. -/
inductive WindowEvent
  | MouseInput (button : MouseButton) (element_state : ElementState)
  | KeyboardInput (scancode : ℕ) (element_state : ElementState) (virtual_keycode : Option ℕ)
  | CloseRequested
  | Resized (physical_size : PhysicalSize)
  | ScaleFactorChanged (new_inner_size : PhysicalSize)
  | OtherEvent
deriving DecidableEq, Repr

/-- The random number generator, modelled as the stream of samples that
successive `rand::thread_rng().gen_range(0.0..1.0)` calls will return. -/
structure Rng where
  next : ℕ → ℚ

/-- The `rand` contract for `gen_range(0.0..1.0)`: every sample lies in
the half-open unit interval. -/
def Rng.wf (rng : Rng) : Prop := ∀ n, 0 ≤ rng.next n ∧ rng.next n < 1

/-- Result of `State::input`: the mutated state, the returned `bool`
(event consumed), and whether `self.window().request_redraw()` was called
inside the handler. -/
structure InputResult where
  state : State
  consumed : Bool
  redraw_requested : Bool
deriving DecidableEq, Repr

/-- Mirrors `State::input`. The left-mouse-press arm draws three fresh
unit samples for r, g, b with alpha fixed at `1.0` and requests a redraw;
the scancode-`0x39`-press arm flips `render_pipeline_idx` and
`index_buffer_idx` (each `if idx > 0 { 0 } else { 1 }`) and recomputes
`num_indices` from the new `index_buffer_idx`; everything else is not
consumed. -/
def State.input (s : State) (event : WindowEvent) (rng : Rng) : InputResult :=
  match event with
  | .MouseInput .Left .Pressed =>
    { state := { s with color := ⟨rng.next 0, rng.next 1, rng.next 2, 1⟩ }
      consumed := true
      redraw_requested := true }
  | .KeyboardInput 0x39 .Pressed _ =>
    let render_pipeline_idx : ℕ := if 0 < s.render_pipeline_idx then 0 else 1
    let index_buffer_idx : ℕ := if 0 < s.index_buffer_idx then 0 else 1
    let num_indices : ℕ :=
      if index_buffer_idx = 0 then INDICES_PENTAGON.length else INDICES_CHALLENGE.length
    { state := { s with render_pipeline_idx := render_pipeline_idx
                        index_buffer_idx := index_buffer_idx
                        num_indices := num_indices }
      consumed := true
      redraw_requested := false }
  | _ => { state := s, consumed := false, redraw_requested := false }

/-- The state transformation of the toggle-key arm of `State::input`
(lines 391-397 of `lib.rs`), as a function on states. -/
def State.toggle (s : State) : State :=
  { s with
    render_pipeline_idx := if 0 < s.render_pipeline_idx then 0 else 1
    index_buffer_idx := if 0 < s.index_buffer_idx then 0 else 1
    num_indices :=
      if (if 0 < s.index_buffer_idx then (0 : ℕ) else 1) = 0
      then INDICES_PENTAGON.length else INDICES_CHALLENGE.length }

/-- Mirrors `wgpu::SurfaceError` (the variants the loop distinguishes,
plus the remaining ones it treats uniformly). -/
inductive SurfaceError
  | Timeout
  | Outdated
  | Lost
  | OutOfMemory
deriving DecidableEq, Repr

/-- Outcome of `self.surface.get_current_texture()`, an input to each
frame supplied by the driver. -/
inductive AcquireResult
  | ok
  | err (e : SurfaceError)
deriving DecidableEq, Repr

/-- The render-pass commands `State::render` records, in order. -/
inductive RenderCommand
  | beginRenderPass (clear : Color)
  | setPipeline (p : RenderPipeline)
  | setBindGroup (slot : ℕ) (group : ℕ)
  | setVertexBuffer (slot : ℕ) (buffer : List Vertex)
  | setIndexBuffer (buffer : List ℕ)
  | drawIndexed (first last : ℕ) (base_vertex : ℕ) (first_instance last_instance : ℕ)
  | endRenderPass
deriving DecidableEq, Repr

/-- What a successful frame did: the recorded command list, and the facts
that the command buffer was submitted and the acquired texture presented. -/
structure FrameOutput where
  commands : List RenderCommand
  submitted : Bool
  presented : Bool
deriving DecidableEq, Repr

/-- Mirrors `State::render`. A failed acquire propagates its error via
`?`. On success the pass is recorded against the active pipeline and
index buffer; the collection lookups
`self.render_pipelines[self.render_pipeline_idx]` and
`self.index_buffers[self.index_buffer_idx]` panic when out of bounds,
modelled by the outer `none`. The state is returned alongside because the
Rust method takes `&mut self`. -/
def State.render (s : State) (acquire : AcquireResult) :
    Option (Except SurfaceError FrameOutput) × State :=
  match acquire with
  | .err e => (some (.error e), s)
  | .ok =>
    match s.render_pipelines[s.render_pipeline_idx]?, s.index_buffers[s.index_buffer_idx]? with
    | some pipeline, some index_buffer =>
      (some (.ok
        { commands := [
            .beginRenderPass s.color,
            .setPipeline pipeline,
            .setBindGroup 0 s.diffuse_bind_group,
            .setVertexBuffer 0 s.vertex_buffer,
            .setIndexBuffer index_buffer,
            .drawIndexed 0 s.num_indices 0 0 1,
            .endRenderPass]
          submitted := true
          presented := true }), s)
    | _, _ => (none, s)

/-- Mirrors `winit::event_loop::ControlFlow` as the loop uses it:
`Exit` terminates the host loop, anything else continues. -/
inductive ControlFlow
  | Poll
  | Exit
deriving DecidableEq, Repr

/-- Everything the `Event::RedrawRequested` arm of `run` produces: the
state after the arm, the control flow it set, the error it printed (if
any), and the successful frame's output (if the frame was drawn). -/
structure RedrawOutcome where
  state : State
  control_flow : ControlFlow
  logged : Option SurfaceError
  frame : Option FrameOutput
deriving DecidableEq, Repr

/-- Mirrors the `Event::RedrawRequested` arm of `run`:
`Ok` continues; `Err(Lost)` calls `state.resize(state.size)` and skips the
frame; `Err(OutOfMemory)` sets `ControlFlow::Exit`; any other error is
printed with `eprintln!` and the frame is skipped. `none` models a panic
inside `render`. -/
def handleRedrawRequested (s : State) (acquire : AcquireResult) : Option RedrawOutcome :=
  match s.render acquire with
  | (none, _) => none
  | (some (.ok frame), s1) =>
    some { state := s1, control_flow := .Poll, logged := none, frame := some frame }
  | (some (.error .Lost), s1) =>
    some { state := s1.resize s1.size, control_flow := .Poll, logged := none, frame := none }
  | (some (.error .OutOfMemory), s1) =>
    some { state := s1, control_flow := .Exit, logged := none, frame := none }
  | (some (.error e), s1) =>
    some { state := s1, control_flow := .Poll, logged := some e, frame := none }

/-- One transition of the event loop in `run`, as it affects `state`:
a window event routed through `State::input` (with whatever samples the
thread RNG supplies), a resize from `Resized`/`ScaleFactorChanged`, or a
`RedrawRequested` frame with whatever acquire outcome the surface
reports. -/
inductive Step : State → State → Prop
  | input (s : State) (event : WindowEvent) (rng : Rng) :
      Step s (s.input event rng).state
  | resized (s : State) (new_size : PhysicalSize) :
      Step s (s.resize new_size)
  | redraw (s : State) (acquire : AcquireResult) (o : RedrawOutcome) :
      handleRedrawRequested s acquire = some o → Step s o.state

/-- The states the program can actually be in: an initial state built by
`State::new` from some window size and capability report, closed under
event-loop transitions. -/
inductive Reachable : State → Prop
  | init (size : PhysicalSize) (caps : SurfaceCapabilities) (s : State) :
      State.new size caps = some s → Reachable s
  | step (s t : State) : Reachable s → Step s t → Reachable t

/-- A concrete capability report used in closed instances: two formats,
the first non-sRGB, the second sRGB. -/
def demoCaps : SurfaceCapabilities :=
  { formats := [⟨0, false⟩, ⟨1, true⟩]
    present_modes := [0]
    alpha_modes := [0] }

/-- The configuration `State::new` builds from an 800x600 window and
`demoCaps`. -/
def demoConfig : SurfaceConfiguration :=
  { usage := RENDER_ATTACHMENT
    format := ⟨1, true⟩
    width := 800
    height := 600
    present_mode := 0
    alpha_mode := 0
    view_formats := [] }

/-- The state `State::new` produces from an 800x600 window and
`demoCaps`. -/
def demoState : State :=
  { config := demoConfig
    size := ⟨800, 600⟩
    color := ⟨1, 1, 1, 1⟩
    render_pipelines := [render_pipeline1, render_pipeline2]
    render_pipeline_idx := 0
    vertex_buffer := VERTICES
    index_buffers := [INDICES_PENTAGON, INDICES_CHALLENGE]
    index_buffer_idx := 0
    num_indices := INDICES_PENTAGON.length
    diffuse_bind_group := 0
    configure_log := [demoConfig] }

theorem demoState_new : State.new ⟨800, 600⟩ demoCaps = some demoState := rfl

theorem demoState_reachable : Reachable demoState :=
  .init ⟨800, 600⟩ demoCaps demoState demoState_new

/-- An RNG stream that always returns one half; well-formed. -/
def halfRng : Rng := ⟨fun _ => 1 / 2⟩

theorem halfRng_wf : halfRng.wf := fun _ => by norm_num [halfRng]

/-- The program invariant tying the three active-variant fields together
and pinning the immutable collections and the size/configuration sync. -/
def Inv (s : State) : Prop :=
  s.render_pipeline_idx = s.index_buffer_idx ∧
  s.index_buffer_idx ≤ 1 ∧
  s.render_pipelines = [render_pipeline1, render_pipeline2] ∧
  s.index_buffers = [INDICES_PENTAGON, INDICES_CHALLENGE] ∧
  s.num_indices =
    (if s.index_buffer_idx = 0 then INDICES_PENTAGON.length else INDICES_CHALLENGE.length) ∧
  s.config.width = s.size.width ∧
  s.config.height = s.size.height

theorem inv_init (size : PhysicalSize) (caps : SurfaceCapabilities) (s : State)
    (h : State.new size caps = some s) : Inv s := by
  unfold State.new at h
  split at h
  · cases h
    simp [Inv]
  · cases h

theorem inv_input (s : State) (event : WindowEvent) (rng : Rng) (h : Inv s) :
    Inv (s.input event rng).state := by
  obtain ⟨h1, h2, h3, h4, h5, h6, h7⟩ := h
  unfold State.input
  split
  · exact ⟨h1, h2, h3, h4, h5, h6, h7⟩
  · refine ⟨?_, ?_, h3, h4, ?_, h6, h7⟩
    · simp [h1]
    · by_cases hib : 0 < s.index_buffer_idx <;> simp [hib]
    · rfl
  · exact ⟨h1, h2, h3, h4, h5, h6, h7⟩

theorem inv_resize (s : State) (new_size : PhysicalSize) (h : Inv s) :
    Inv (s.resize new_size) := by
  obtain ⟨h1, h2, h3, h4, h5, h6, h7⟩ := h
  unfold State.resize
  split
  · exact ⟨h1, h2, h3, h4, h5, rfl, rfl⟩
  · exact ⟨h1, h2, h3, h4, h5, h6, h7⟩

theorem render_state_eq (s : State) (acquire : AcquireResult) :
    (s.render acquire).2 = s := by
  unfold State.render
  cases acquire
  · dsimp only
    split <;> rfl
  · rfl

theorem inv_redraw (s : State) (acquire : AcquireResult) (o : RedrawOutcome)
    (ho : handleRedrawRequested s acquire = some o) (h : Inv s) : Inv o.state := by
  have hs2 := render_state_eq s acquire
  unfold handleRedrawRequested at ho
  revert ho
  rcases hr : s.render acquire with ⟨r, s1⟩
  rw [hr] at hs2
  dsimp only at hs2
  subst hs2
  intro ho
  rcases r with _ | r
  · cases ho
  rcases r with e | frame
  · cases e <;> injection ho with ho <;> subst ho
    · exact h
    · exact h
    · exact inv_resize _ _ h
    · exact h
  · injection ho with ho
    subst ho
    exact h

theorem reachable_inv (s : State) (h : Reachable s) : Inv s := by
  induction h with
  | init size caps s hnew => exact inv_init size caps s hnew
  | step s t _ hstep ih =>
    cases hstep with
    | input event rng => exact inv_input s event rng ih
    | resized new_size => exact inv_resize s new_size ih
    | redraw acquire o ho => exact inv_redraw s acquire o ho ih

/-- Spec-side definition for the format-selection refinement claim,
written from the spec's words only: select the first sRGB-capable format
in the reported order, and fall back to the first listed format when no
reported format is sRGB-capable. Compared against `chooseSurfaceFormat`,
which is translated from the source. -/
def specFirstSrgbElseFirst (formats : List TextureFormat) : Option TextureFormat :=
  match formats.find? (fun f => f.srgb) with
  | some f => some f
  | none => formats.head?

theorem filter_head_eq_find (p : TextureFormat → Bool) (l : List TextureFormat) :
    (l.filter p).head? = l.find? p := by
  induction l with
  | nil => rfl
  | cons a t ih => by_cases hpa : p a <;> simp [List.filter_cons, List.find?_cons, hpa, ih]

/-- The toggle-key arm of `State::input` is exactly `State.toggle` plus
consuming the event without a redraw request. -/
theorem input_toggle_key (s : State) (rng : Rng) (vkc : Option ℕ) :
    s.input (.KeyboardInput 0x39 .Pressed vkc) rng = ⟨s.toggle, true, false⟩ := rfl

theorem toggle_toggle_of_inv (s : State) (h : Inv s) : s.toggle.toggle = s := by
  cases s with
  | mk config size color rps rp vb ibs ib num bg log =>
    obtain ⟨h1, h2, h3, h4, h5, h6, h7⟩ := h
    dsimp only at h1 h2 h5
    subst h1
    rcases Nat.le_one_iff_eq_zero_or_eq_one.mp h2 with h0 | h0 <;> subst h0 <;>
      simp_all [State.toggle]

/-- C2: a resize with a zero dimension changes nothing at all (the stored
size, the whole surface configuration, and the log of configure calls are
untouched and no error arises), and a zero resize followed by a resize to
800x600 produces exactly the state a direct 800x600 resize produces. -/
theorem resize_zero_is_noop (s : State) (w h : ℕ) (hz : w = 0 ∨ h = 0) :
    s.resize ⟨w, h⟩ = s ∧
      (s.resize ⟨0, 0⟩).resize ⟨800, 600⟩ = s.resize ⟨800, 600⟩ := by
  constructor
  · unfold State.resize
    rcases hz with hz | hz <;> subst hz <;> simp
  · have h0 : s.resize ⟨0, 0⟩ = s := by unfold State.resize; simp
    rw [h0]

theorem resize_zero_is_noop_witness :
    demoState.resize ⟨0, 5⟩ = demoState ∧
      (demoState.resize ⟨0, 0⟩).resize ⟨800, 600⟩ = demoState.resize ⟨800, 600⟩ :=
  resize_zero_is_noop demoState 0 5 (Or.inl rfl)

/-- C6: on a nonempty reported format list, startup's format selection
equals the spec-side choice: the first sRGB-capable format in reported
order, else the first listed format (and it is a function of the list, so
it is deterministic). -/
theorem surface_format_first_srgb (formats : List TextureFormat) (hne : formats ≠ []) :
    chooseSurfaceFormat formats = specFirstSrgbElseFirst formats := by
  rcases formats with _ | ⟨f0, rest⟩
  · exact absurd rfl hne
  · unfold chooseSurfaceFormat specFirstSrgbElseFirst
    rw [← filter_head_eq_find]
    rcases hfilter : ((f0 :: rest).filter (fun f => f.srgb)).head? with _ | f <;>
      simp [hfilter]

theorem surface_format_first_srgb_witness :
    demoCaps.formats ≠ [] ∧
      chooseSurfaceFormat demoCaps.formats = specFirstSrgbElseFirst demoCaps.formats :=
  ⟨by decide, surface_format_first_srgb demoCaps.formats (by decide)⟩

/-- C7 counterexample: startup from a window whose reported inner size has
width 0 performs a surface configure call with width 0 — `State::new`
passes the window size through with no positive-dimension guard, so the
claim that every (re)configuration, the initial one included, has both
dimensions strictly positive is false. -/
theorem startup_configures_zero_size :
    ∃ s : State, State.new ⟨0, 600⟩ demoCaps = some s ∧
      ∃ c ∈ s.configure_log, c.width = 0 :=
  ⟨_, rfl, by decide⟩

/-- C7 amended: every configure call that `State::resize` performs (every
entry it appends to the configure log) has strictly positive width and
height, and a resize with a zero dimension performs no configure call at
all; only the unconditional initial configuration in `State::new` can pass
a zero dimension through. -/
theorem resize_configures_only_positive (s : State) (new_size : PhysicalSize)
    (c : SurfaceConfiguration) (hc : c ∈ (s.resize new_size).configure_log) :
    c ∈ s.configure_log ∨ (0 < c.width ∧ 0 < c.height) := by
  unfold State.resize at hc
  by_cases hpos : 0 < new_size.width ∧ 0 < new_size.height
  · rw [if_pos hpos] at hc
    rcases List.mem_append.mp hc with hmem | hmem
    · exact Or.inl hmem
    · rcases List.mem_singleton.mp hmem with rfl
      exact Or.inr ⟨hpos.1, hpos.2⟩
  · rw [if_neg hpos] at hc
    exact Or.inl hc

theorem resize_configures_only_positive_witness :
    ({ demoConfig with width := 100, height := 50 } : SurfaceConfiguration) ∈
        demoState.configure_log ∨
      (0 < ({ demoConfig with width := 100, height := 50 } : SurfaceConfiguration).width ∧
       0 < ({ demoConfig with width := 100, height := 50 } : SurfaceConfiguration).height) :=
  resize_configures_only_positive demoState ⟨100, 50⟩ _ (by decide)

/-- C8: a primary (left) pointer-button press is consumed, requests a
redraw, and replaces the clear color with one whose red, green and blue
channels are the next three unit-interval samples of the thread RNG (so
each lies in [0,1)) and whose alpha is exactly 1. -/
theorem pointer_press_randomizes_color (s : State) (rng : Rng) (hw : rng.wf) :
    (s.input (.MouseInput .Left .Pressed) rng).consumed = true ∧
    (s.input (.MouseInput .Left .Pressed) rng).redraw_requested = true ∧
    (s.input (.MouseInput .Left .Pressed) rng).state.color =
      ⟨rng.next 0, rng.next 1, rng.next 2, 1⟩ ∧
    0 ≤ (s.input (.MouseInput .Left .Pressed) rng).state.color.r ∧
    (s.input (.MouseInput .Left .Pressed) rng).state.color.r < 1 ∧
    0 ≤ (s.input (.MouseInput .Left .Pressed) rng).state.color.g ∧
    (s.input (.MouseInput .Left .Pressed) rng).state.color.g < 1 ∧
    0 ≤ (s.input (.MouseInput .Left .Pressed) rng).state.color.b ∧
    (s.input (.MouseInput .Left .Pressed) rng).state.color.b < 1 ∧
    (s.input (.MouseInput .Left .Pressed) rng).state.color.a = 1 :=
  ⟨rfl, rfl, rfl, (hw 0).1, (hw 0).2, (hw 1).1, (hw 1).2, (hw 2).1, (hw 2).2, rfl⟩

theorem pointer_press_randomizes_color_witness :
    (demoState.input (.MouseInput .Left .Pressed) halfRng).consumed = true ∧
    (demoState.input (.MouseInput .Left .Pressed) halfRng).redraw_requested = true ∧
    (demoState.input (.MouseInput .Left .Pressed) halfRng).state.color =
      ⟨halfRng.next 0, halfRng.next 1, halfRng.next 2, 1⟩ ∧
    0 ≤ (demoState.input (.MouseInput .Left .Pressed) halfRng).state.color.r ∧
    (demoState.input (.MouseInput .Left .Pressed) halfRng).state.color.r < 1 ∧
    0 ≤ (demoState.input (.MouseInput .Left .Pressed) halfRng).state.color.g ∧
    (demoState.input (.MouseInput .Left .Pressed) halfRng).state.color.g < 1 ∧
    0 ≤ (demoState.input (.MouseInput .Left .Pressed) halfRng).state.color.b ∧
    (demoState.input (.MouseInput .Left .Pressed) halfRng).state.color.b < 1 ∧
    (demoState.input (.MouseInput .Left .Pressed) halfRng).state.color.a = 1 :=
  pointer_press_randomizes_color demoState halfRng halfRng_wf

/-- C9: a frame, whether it succeeds or returns a surface error, leaves
the clear color, the active-variant indices, the index count, the surface
configuration, the stored size — indeed the whole state, the configure log
included — unchanged. -/
theorem render_mutates_nothing (s : State) (acquire : AcquireResult) :
    (s.render acquire).2.color = s.color ∧
    (s.render acquire).2.render_pipeline_idx = s.render_pipeline_idx ∧
    (s.render acquire).2.index_buffer_idx = s.index_buffer_idx ∧
    (s.render acquire).2.num_indices = s.num_indices ∧
    (s.render acquire).2.config = s.config ∧
    (s.render acquire).2.size = s.size ∧
    (s.render acquire).2 = s := by
  rw [render_state_eq s acquire]
  exact ⟨rfl, rfl, rfl, rfl, rfl, rfl, rfl⟩

/-- C1: in every reachable state, a toggle-key press (scancode `0x39`,
pressed) is consumed and updates the pipeline index, the index-buffer
index and the index count in the same transition, leaving the pipeline
index equal to the index-buffer index and the index count equal to the
length of the selected index list — 9 (`INDICES_PENTAGON`) at index 0 and
15 (`INDICES_CHALLENGE`) at index 1. -/
theorem toggle_key_keeps_variant_consistent (s : State) (hs : Reachable s)
    (rng : Rng) (vkc : Option ℕ) :
    (s.input (.KeyboardInput 0x39 .Pressed vkc) rng).consumed = true ∧
    (s.input (.KeyboardInput 0x39 .Pressed vkc) rng).state.render_pipeline_idx =
      (s.input (.KeyboardInput 0x39 .Pressed vkc) rng).state.index_buffer_idx ∧
    ((s.input (.KeyboardInput 0x39 .Pressed vkc) rng).state.index_buffer_idx = 0 →
      (s.input (.KeyboardInput 0x39 .Pressed vkc) rng).state.num_indices = 9) ∧
    ((s.input (.KeyboardInput 0x39 .Pressed vkc) rng).state.index_buffer_idx = 1 →
      (s.input (.KeyboardInput 0x39 .Pressed vkc) rng).state.num_indices = 15) ∧
    (s.input (.KeyboardInput 0x39 .Pressed vkc) rng).state.num_indices =
      ((s.input (.KeyboardInput 0x39 .Pressed vkc) rng).state.index_buffers.getD
        (s.input (.KeyboardInput 0x39 .Pressed vkc) rng).state.index_buffer_idx []).length := by
  obtain ⟨h1, h2, h3, h4, h5, _, _⟩ :=
    inv_input s (.KeyboardInput 0x39 .Pressed vkc) rng (reachable_inv s hs)
  refine ⟨rfl, h1, ?_, ?_, ?_⟩
  · intro h0
    rw [h5, if_pos h0]
    rfl
  · intro h0
    rw [h5, h0]
    rfl
  · rcases Nat.le_one_iff_eq_zero_or_eq_one.mp h2 with h0 | h0 <;>
      rw [h5, h4, h0] <;> rfl

theorem toggle_key_keeps_variant_consistent_witness :
    (demoState.input (.KeyboardInput 0x39 .Pressed none) halfRng).consumed = true ∧
    (demoState.input (.KeyboardInput 0x39 .Pressed none) halfRng).state.render_pipeline_idx =
      (demoState.input (.KeyboardInput 0x39 .Pressed none) halfRng).state.index_buffer_idx ∧
    ((demoState.input (.KeyboardInput 0x39 .Pressed none) halfRng).state.index_buffer_idx = 0 →
      (demoState.input (.KeyboardInput 0x39 .Pressed none) halfRng).state.num_indices = 9) ∧
    ((demoState.input (.KeyboardInput 0x39 .Pressed none) halfRng).state.index_buffer_idx = 1 →
      (demoState.input (.KeyboardInput 0x39 .Pressed none) halfRng).state.num_indices = 15) ∧
    (demoState.input (.KeyboardInput 0x39 .Pressed none) halfRng).state.num_indices =
      ((demoState.input (.KeyboardInput 0x39 .Pressed none) halfRng).state.index_buffers.getD
        (demoState.input (.KeyboardInput 0x39 .Pressed none) halfRng).state.index_buffer_idx
        []).length :=
  toggle_key_keeps_variant_consistent demoState demoState_reachable halfRng none

/-- C5: from every reachable state the variant toggle is an involution —
two toggles restore the whole state, and any even-length sequence of
toggles restores it as well (so in particular the pipeline index, the
index-buffer index and the index count return to their original values). -/
theorem toggle_involution (s : State) (hs : Reachable s) :
    State.toggle (State.toggle s) = s ∧ ∀ n : ℕ, State.toggle^[2 * n] s = s := by
  have h := toggle_toggle_of_inv s (reachable_inv s hs)
  have h2 : State.toggle^[2] s = s := by
    simpa [Function.iterate_succ_apply'] using h
  refine ⟨h, ?_⟩
  intro n
  induction n with
  | zero => rfl
  | succ n ih =>
    rw [Nat.mul_succ, Function.iterate_add_apply, h2, ih]

theorem toggle_involution_witness :
    State.toggle (State.toggle demoState) = demoState ∧
      State.toggle^[2 * 3] demoState = demoState :=
  ⟨(toggle_involution demoState demoState_reachable).1,
   (toggle_involution demoState demoState_reachable).2 3⟩

/-- C10: in every reachable state both active indices are at most 1, the
pipeline and index-buffer collections hold exactly two elements, so the
per-frame collection lookups are in bounds and recording a frame never
panics (`render` on a successful acquire never reaches the out-of-bounds
case modelled by `none`). -/
theorem active_indices_in_bounds (s : State) (hs : Reachable s) :
    s.render_pipeline_idx ≤ 1 ∧ s.index_buffer_idx ≤ 1 ∧
    s.render_pipelines.length = 2 ∧ s.index_buffers.length = 2 ∧
    s.render_pipeline_idx < s.render_pipelines.length ∧
    s.index_buffer_idx < s.index_buffers.length ∧
    (s.render .ok).1 ≠ none := by
  obtain ⟨h1, h2, h3, h4, h5, _, _⟩ := reachable_inv s hs
  have hrp : s.render_pipeline_idx ≤ 1 := h1 ▸ h2
  have hlen1 : s.render_pipelines.length = 2 := by rw [h3]; rfl
  have hlen2 : s.index_buffers.length = 2 := by rw [h4]; rfl
  refine ⟨hrp, h2, hlen1, hlen2, by omega, by omega, ?_⟩
  unfold State.render
  rcases Nat.le_one_iff_eq_zero_or_eq_one.mp h2 with h0 | h0 <;>
    rw [h3, h4, h1, h0] <;> simp

theorem active_indices_in_bounds_witness :
    demoState.render_pipeline_idx ≤ 1 ∧ demoState.index_buffer_idx ≤ 1 ∧
    demoState.render_pipelines.length = 2 ∧ demoState.index_buffers.length = 2 ∧
    demoState.render_pipeline_idx < demoState.render_pipelines.length ∧
    demoState.index_buffer_idx < demoState.index_buffers.length ∧
    (demoState.render .ok).1 ≠ none :=
  active_indices_in_bounds demoState demoState_reachable

/-- C3: from every reachable state, the redraw arm of the event loop
dispatches the acquire outcome exactly as the spec says — success records,
submits and presents a frame and continues; `Lost` reconfigures from the
stored state (`resize` with the stored size) and skips the frame without
crashing; `OutOfMemory` sets the exit control flow; any other error is
logged and the frame is skipped with the loop continuing. -/
theorem frame_error_dispatch (s : State) (hs : Reachable s) :
    (∃ frame : FrameOutput,
      handleRedrawRequested s .ok = some ⟨s, .Poll, none, some frame⟩ ∧
      frame.submitted = true ∧ frame.presented = true) ∧
    handleRedrawRequested s (.err .Lost) = some ⟨s.resize s.size, .Poll, none, none⟩ ∧
    handleRedrawRequested s (.err .OutOfMemory) = some ⟨s, .Exit, none, none⟩ ∧
    (∀ e : SurfaceError, e ≠ .Lost → e ≠ .OutOfMemory →
      handleRedrawRequested s (.err e) = some ⟨s, .Poll, some e, none⟩) := by
  obtain ⟨h1, h2, h3, h4, _, _, _⟩ := reachable_inv s hs
  refine ⟨?_, rfl, rfl, ?_⟩
  · rcases Nat.le_one_iff_eq_zero_or_eq_one.mp h2 with h0 | h0
    · refine ⟨⟨[
          .beginRenderPass s.color,
          .setPipeline render_pipeline1,
          .setBindGroup 0 s.diffuse_bind_group,
          .setVertexBuffer 0 s.vertex_buffer,
          .setIndexBuffer INDICES_PENTAGON,
          .drawIndexed 0 s.num_indices 0 0 1,
          .endRenderPass], true, true⟩, ?_, rfl, rfl⟩
      unfold handleRedrawRequested State.render
      rw [h3, h4, h1, h0]
      rfl
    · refine ⟨⟨[
          .beginRenderPass s.color,
          .setPipeline render_pipeline2,
          .setBindGroup 0 s.diffuse_bind_group,
          .setVertexBuffer 0 s.vertex_buffer,
          .setIndexBuffer INDICES_CHALLENGE,
          .drawIndexed 0 s.num_indices 0 0 1,
          .endRenderPass], true, true⟩, ?_, rfl, rfl⟩
      unfold handleRedrawRequested State.render
      rw [h3, h4, h1, h0]
      rfl
  · intro e he1 he2
    cases e
    · rfl
    · rfl
    · exact absurd rfl he1
    · exact absurd rfl he2

theorem frame_error_dispatch_witness :
    handleRedrawRequested demoState (.err .Lost) =
      some ⟨demoState.resize demoState.size, .Poll, none, none⟩ ∧
    handleRedrawRequested demoState (.err .OutOfMemory) =
      some ⟨demoState, .Exit, none, none⟩ ∧
    handleRedrawRequested demoState (.err .Timeout) =
      some ⟨demoState, .Poll, some .Timeout, none⟩ :=
  ⟨(frame_error_dispatch demoState demoState_reachable).2.1,
   (frame_error_dispatch demoState demoState_reachable).2.2.1,
   (frame_error_dispatch demoState demoState_reachable).2.2.2 .Timeout
     (by decide) (by decide)⟩

/-- C4: from every reachable state, `Lost` recovery is exactly
`resize` with the stored size, which leaves both the surface configuration
(width and height included) and the stored size identical to their values
before the loss. -/
theorem surface_lost_recovery (s : State) (hs : Reachable s) :
    handleRedrawRequested s (.err .Lost) = some ⟨s.resize s.size, .Poll, none, none⟩ ∧
    (s.resize s.size).config = s.config ∧
    (s.resize s.size).size = s.size := by
  obtain ⟨_, _, _, _, _, h6, h7⟩ := reachable_inv s hs
  refine ⟨rfl, ?_, ?_⟩
  · unfold State.resize
    by_cases hpos : 0 < s.size.width ∧ 0 < s.size.height
    · rw [if_pos hpos]
      rw [← h6, ← h7]
    · rw [if_neg hpos]
  · unfold State.resize
    by_cases hpos : 0 < s.size.width ∧ 0 < s.size.height
    · rw [if_pos hpos]
    · rw [if_neg hpos]

theorem surface_lost_recovery_witness :
    handleRedrawRequested demoState (.err .Lost) =
      some ⟨demoState.resize demoState.size, .Poll, none, none⟩ ∧
    (demoState.resize demoState.size).config = demoState.config ∧
    (demoState.resize demoState.size).size = demoState.size :=
  surface_lost_recovery demoState demoState_reachable

end LearnWgpu
